import Mathlib

/-!
# rtcd/whip: the GStreamer binding layer

A shallow embedding of the two C files of the repository,

* `internal/gst-src/gst.c`: the outbound ("send") pipeline controller,
* `pkg/gst/gst.c`: the inbound ("receive") pipeline controller,

together with a small executable model of the part of GLib/GStreamer that they
call.  Each C function of the wrapper is a definition of the same name, written
statement by statement in a state monad over `World`; the framework calls are
definitions named after the C functions they stand for.

Conventions of the embedding:

* the `GstElement *pipeline` argument of the wrapper functions is the graph held
  in `World.pipeline`; a `GstElement *` to a named element is the index of that
  element in the graph, `none` standing for `NULL`;
* a `gpointer` into memory is an index into `World.heap`, `none` for `NULL`;
* the host handler `goHandlePipelineBuffer` is declared outside the two files;
  its invocations are recorded with the argument values of the call site;
* the framework parser behind `gst_parse_launch` is a parameter;
* arguments that a C function never uses (`bus` and `data` of the bus
  listeners) are left out, and the two `start_mainloop` functions, which run the
  event loop and do not return, are not part of the embedding.
-/

namespace Whip

/-! ## Data model -/

/-- One byte of a media buffer. -/
abbrev Byte := Fin 256

/-- The C struct `SampleHandlerUserData` of `internal/gst-src/gst.c`. -/
structure SampleHandlerUserData where
  pipelineId : Int
  trackIdx : Int
deriving DecidableEq

/-- A heap block: either raw bytes (a host buffer, a `g_memdup` copy, the
destination of `gst_buffer_extract_dup`) or a `SampleHandlerUserData` record
obtained from `calloc`.  An address is an index into the list of blocks; the
null pointer is `none`. -/
inductive Block where
  | bytes (data : List Byte)
  | userData (d : SampleHandlerUserData)
deriving DecidableEq

/-- The constant `GST_CLOCK_TIME_NONE`, the all-ones 64-bit value. -/
def GST_CLOCK_TIME_NONE : Nat := 2 ^ 64 - 1

/-- A `GstBuffer`: the address of its memory, its size (`gsize`) and its
duration (`GstClockTime`). -/
structure GstBuffer where
  data : Option Nat
  size : Nat
  duration : Nat
deriving DecidableEq

/-- A `GstSample`; `gst_sample_get_buffer` is `NULL` when it carries no buffer. -/
structure GstSample where
  buffer : Option GstBuffer
deriving DecidableEq

/-- The callbacks the wrapper connects to signals. -/
inductive Callback where
  | gstreamer_send_new_sample_handler
deriving DecidableEq

/-- One `g_signal_connect` registration on an element. -/
structure SignalHandler where
  signal : String
  callback : Callback
  user_data : Option Nat
deriving DecidableEq

/-- A named element of the graph, as far as the wrapper touches it: the
`emit-signals` property, the handlers connected to it, the samples an appsink
holds ready for `pull-sample`, and the buffers handed to it through
`gst_app_src_push_buffer`, oldest first. -/
structure GstElement where
  name : String
  refcount : Nat
  emitSignals : Bool
  handlers : List SignalHandler
  queue : List GstSample
  submitted : List GstBuffer
deriving DecidableEq

/-- The element states `GST_STATE_*`. -/
inductive GstState where
  | GST_STATE_VOID_PENDING
  | GST_STATE_NULL
  | GST_STATE_READY
  | GST_STATE_PAUSED
  | GST_STATE_PLAYING
deriving DecidableEq

/-- The bus listeners of the two controllers. -/
inductive BusFunc where
  | gstreamer_send_bus_call
  | gstreamer_receive_bus_call
deriving DecidableEq

/-- The `gpointer data` given to `gst_bus_add_watch`: `NULL` or the pipeline. -/
inductive BusData where
  | null
  | pipeline
deriving DecidableEq

structure BusWatch where
  func : BusFunc
  data : BusData
deriving DecidableEq

/-- The graph behind a pipeline handle: its state, its bus (reference count and
the single watch a bus can carry) and its named elements. -/
structure GstPipeline where
  state : GstState
  busRefs : Nat
  busWatch : Option BusWatch
  children : List GstElement
deriving DecidableEq

/-- A reference-counted framework object reachable from the pipeline. -/
inductive GstObject where
  | bus
  | element (i : Nat)
deriving DecidableEq

/-- A `GError`. -/
structure GError where
  code : Int
  message : String
deriving DecidableEq

/-- A bus message, by `GST_MESSAGE_TYPE`. -/
inductive GstMessage where
  | GST_MESSAGE_EOS
  | GST_MESSAGE_ERROR (error : GError) (debug : String)
  | other (type : Nat)
deriving DecidableEq

/-- The enumeration `GstFlowReturn`, as far as it is used. -/
inductive GstFlowReturn where
  | GST_FLOW_OK
  | GST_FLOW_ERROR
deriving DecidableEq

/-- One invocation of the host handler `goHandlePipelineBuffer`, with the five
arguments as they stand at the call site. -/
structure HostCall where
  buffer : Option Nat
  bufferLen : Nat
  duration : Nat
  pipelineId : Int
  trackIdx : Int
deriving DecidableEq

/-- What `gst_parse_launch` hands back: the returned element (`none` is `NULL`)
and the value left in its `GError **` output.  The two are independent: the
framework documents that the return value can be non-null although the error is
set (a recoverable parse error, the graph can still be played). -/
structure ParseOutput where
  element : Option GstPipeline
  error : Option GError
deriving DecidableEq

/-- Everything the wrapper can observe or change.

* `fatalCriticals`: whether GLib treats critical diagnostics as fatal
  (`G_DEBUG=fatal-criticals`); off by default.
* `gstInitCalls`, `parsed`: the calls made to `gst_init` and the descriptions
  handed to `gst_parse_launch`.
* `stdout`, `stderr`: what `g_print` and `g_printerr` wrote.
* `criticals`: the framework functions that rejected an argument with a
  critical diagnostic (`g_return_if_fail`).
* `heap`: the blocks allocated so far.
* `pipeline`: the graph the pipeline handle points to.
* `sampleRefs`: sample references pulled and not yet released.
* `hostCalls`: the invocations of `goHandlePipelineBuffer`, oldest first. -/
structure World where
  fatalCriticals : Bool
  gstInitCalls : Nat
  parsed : List String
  stdout : List String
  stderr : List String
  criticals : List String
  heap : List Block
  pipeline : GstPipeline
  sampleRefs : Nat
  hostCalls : List HostCall
deriving DecidableEq

/-! ## The process monad -/

/-- How a call ends: it returns a value, the process leaves through `exit`,
the process is aborted by a fatal critical diagnostic, or the C behaviour is
undefined (a dereference of a pointer that is not a live block). -/
inductive Result (α : Type) where
  | ok (a : α) (w : World)
  | exited (status : Int) (w : World)
  | aborted (w : World)
  | undefined (w : World)
deriving DecidableEq

/-- A C call: a function from the world before to the outcome. -/
def M (α : Type) : Type := World → Result α

def M.pure {α : Type} (a : α) : M α := fun w => Result.ok a w

def M.bind {α β : Type} (m : M α) (f : α → M β) : M β := fun w =>
  match m w with
  | Result.ok a w1 => f a w1
  | Result.exited c w1 => Result.exited c w1
  | Result.aborted w1 => Result.aborted w1
  | Result.undefined w1 => Result.undefined w1

instance : Monad M where
  pure := M.pure
  bind := M.bind

/-- Whether the call ended the process (`exit`, or abort on a fatal critical). -/
def Result.terminated {α : Type} : Result α → Bool
  | Result.ok _ _ => false
  | Result.exited _ _ => true
  | Result.aborted _ => true
  | Result.undefined _ => false

/-- The world a call leaves behind. -/
def Result.world {α : Type} : Result α → World
  | Result.ok _ w => w
  | Result.exited _ w => w
  | Result.aborted w => w
  | Result.undefined w => w

/-- C `exit(status)`. -/
def exit {α : Type} (status : Int) : M α := fun w => Result.exited status w

/-- Undefined behaviour. -/
def undefinedBehaviour {α : Type} : M α := fun w => Result.undefined w

/-! ## C integer conversions -/

/-- Conversion of an `int` to `guint` (32 bits). -/
def toGuint (x : Int) : Nat := (x % 2 ^ 32).toNat

/-- Conversion of an `int` to `gsize` (64 bits). -/
def toGsize (x : Int) : Nat := (x % 2 ^ 64).toNat

/-! ## Lists of elements -/

/-- Index of the first element called `name`. -/
def findIdx (name : String) : List GstElement → Option Nat
  | [] => none
  | e :: es => if e.name = name then some 0 else (findIdx name es).map (· + 1)

/-- Apply `f` to the element at index `i`. -/
def modifyAt (f : GstElement → GstElement) : Nat → List GstElement → List GstElement
  | _, [] => []
  | 0, e :: es => f e :: es
  | n + 1, e :: es => e :: modifyAt f n es

/-- The first element of the graph called `name`, if any. -/
def GstPipeline.byName (p : GstPipeline) (name : String) : Option GstElement :=
  match findIdx name p.children with
  | some i => p.children[i]?
  | none => none

/-- Change the element at index `i` of the graph of the world. -/
def World.modifyElement (w : World) (i : Nat) (f : GstElement → GstElement) : World :=
  { w with pipeline := { w.pipeline with children := modifyAt f i w.pipeline.children } }

/-! ## The heap -/

/-- The `n` bytes found at pointer `p`: `some []` for `n = 0`, `none` when `p`
does not point to a byte block of at least `n` bytes. -/
def bytesAt (heap : List Block) (p : Option Nat) (n : Nat) : Option (List Byte) :=
  if n = 0 then some []
  else
    match p with
    | none => none
    | some a =>
      match heap[a]? with
      | some (Block.bytes d) => if n ≤ d.length then some (d.take n) else none
      | _ => none

/-- The payload of a buffer. -/
def GstBuffer.payload (heap : List Block) (b : GstBuffer) : Option (List Byte) :=
  bytesAt heap b.data b.size

/-- The record a `SampleHandlerUserData *` points to. -/
def userDataAt (heap : List Block) (p : Option Nat) : Option SampleHandlerUserData :=
  match p with
  | none => none
  | some a =>
    match heap[a]? with
    | some (Block.userData d) => some d
    | _ => none

/-- Allocate a new block; its address is the next free index. -/
def alloc (b : Block) : M Nat := fun w =>
  Result.ok w.heap.length { w with heap := w.heap ++ [b] }

/-! ## The framework (GLib, GStreamer), as far as the wrapper calls it -/

/-- A critical diagnostic (`g_return_if_fail` and friends): the rejecting
function is recorded; the process is aborted when criticals are fatal. -/
def g_critical (func : String) : M Unit := fun w =>
  let w1 := { w with criticals := w.criticals ++ [func] }
  if w.fatalCriticals then Result.aborted w1 else Result.ok () w1

def g_print (s : String) : M Unit := fun w =>
  Result.ok () { w with stdout := w.stdout ++ [s] }

def g_printerr (s : String) : M Unit := fun w =>
  Result.ok () { w with stderr := w.stderr ++ [s] }

def gst_init : M Unit := fun w =>
  Result.ok () { w with gstInitCalls := w.gstInitCalls + 1 }

/-- The call `gst_parse_launch(pipeline, &error)`: the framework parser `parser` is
given the description; the element it returns and the error it leaves come back. -/
def gst_parse_launch (parser : String → ParseOutput) (description : String) :
    M ParseOutput := fun w =>
  Result.ok (parser description) { w with parsed := w.parsed ++ [description] }

/-- The call `gst_pipeline_get_bus`: a new reference to the bus. -/
def gst_pipeline_get_bus : M (Option GstObject) := fun w =>
  Result.ok (some GstObject.bus)
    { w with pipeline := { w.pipeline with busRefs := w.pipeline.busRefs + 1 } }

/-- The call `gst_bus_add_watch`: a bus carries a single watch; a second one is
refused.  An argument that is not a bus is rejected. -/
def gst_bus_add_watch (bus : Option GstObject) (func : BusFunc) (data : BusData) :
    M Unit := fun w =>
  match bus with
  | some GstObject.bus =>
    match w.pipeline.busWatch with
    | none =>
      Result.ok () { w with pipeline := { w.pipeline with busWatch := some ⟨func, data⟩ } }
    | some _ => Result.ok () w
  | _ => g_critical "gst_bus_add_watch" w

/-- The call `gst_object_unref`: drops one reference; a null object is rejected
with a critical diagnostic (`g_return_if_fail (object != NULL)`). -/
def gst_object_unref (object : Option GstObject) : M Unit := fun w =>
  match object with
  | some GstObject.bus =>
    Result.ok () { w with pipeline := { w.pipeline with busRefs := w.pipeline.busRefs - 1 } }
  | some (GstObject.element i) =>
    Result.ok () (w.modifyElement i (fun e => { e with refcount := e.refcount - 1 }))
  | none => g_critical "gst_object_unref" w

/-- The call `gst_bin_get_by_name`: the first element of that name with one more
reference, or `NULL` when the graph has none. -/
def gst_bin_get_by_name (name : String) : M (Option Nat) := fun w =>
  match findIdx name w.pipeline.children with
  | some i =>
    Result.ok (some i) (w.modifyElement i (fun e => { e with refcount := e.refcount + 1 }))
  | none => Result.ok none w

/-- The call `g_object_set(object, name, value, NULL)` for a boolean property;
the only property of the model is `emit-signals`.  A null object is rejected
with a critical diagnostic (`g_return_if_fail (G_IS_OBJECT (object))`) and the
call returns. -/
def g_object_set (object : Option Nat) (first_property_name : String) (value : Bool) :
    M Unit := fun w =>
  match object with
  | some i =>
    if first_property_name = "emit-signals" then
      Result.ok () (w.modifyElement i (fun e => { e with emitSignals := value }))
    else Result.ok () w
  | none => g_critical "g_object_set" w

/-- The call `g_signal_connect`: the handler is added after those already
connected.  A null instance is rejected with a critical diagnostic and nothing
is connected. -/
def g_signal_connect (instance_ : Option Nat) (detailed_signal : String)
    (c_handler : Callback) (data : Option Nat) : M Unit := fun w =>
  match instance_ with
  | some i =>
    Result.ok ()
      (w.modifyElement i (fun e =>
        { e with handlers := e.handlers ++ [⟨detailed_signal, c_handler, data⟩] }))
  | none => g_critical "g_signal_connect" w

/-- The call `gst_element_set_state(pipeline, state)`: the graph takes the state. -/
def gst_element_set_state (state : GstState) : M Unit := fun w =>
  Result.ok () { w with pipeline := { w.pipeline with state := state } }

/-- The call `calloc(1, sizeof(SampleHandlerUserData))`: a zeroed record. -/
def calloc_SampleHandlerUserData : M (Option Nat) := fun w =>
  match alloc (Block.userData ⟨0, 0⟩) w with
  | Result.ok a w1 => Result.ok (some a) w1
  | Result.exited c w1 => Result.exited c w1
  | Result.aborted w1 => Result.aborted w1
  | Result.undefined w1 => Result.undefined w1

/-- The assignment `s->pipelineId = v`. -/
def set_pipelineId (s : Option Nat) (v : Int) : M Unit := fun w =>
  match s with
  | some a =>
    match w.heap[a]? with
    | some (Block.userData d) =>
      Result.ok () { w with heap := w.heap.set a (Block.userData { d with pipelineId := v }) }
    | _ => Result.undefined w
  | none => Result.undefined w

/-- The assignment `s->trackIdx = v`. -/
def set_trackIdx (s : Option Nat) (v : Int) : M Unit := fun w =>
  match s with
  | some a =>
    match w.heap[a]? with
    | some (Block.userData d) =>
      Result.ok () { w with heap := w.heap.set a (Block.userData { d with trackIdx := v }) }
    | _ => Result.undefined w
  | none => Result.undefined w

/-- Reading `*s`. -/
def deref_SampleHandlerUserData (s : Option Nat) : M SampleHandlerUserData := fun w =>
  match userDataAt w.heap s with
  | some d => Result.ok d w
  | none => Result.undefined w

/-- The body shared by `g_memdup` and `g_memdup2`: `NULL` when `mem` is `NULL` or
`byte_size` is 0, otherwise a new block holding the first `byte_size` bytes at
`mem`. -/
def g_memdup_bytes (mem : Option Nat) (byte_size : Nat) : M (Option Nat) := fun w =>
  if mem.isSome ∧ byte_size ≠ 0 then
    match bytesAt w.heap mem byte_size with
    | some d =>
      match alloc (Block.bytes d) w with
      | Result.ok a w1 => Result.ok (some a) w1
      | Result.exited c w1 => Result.exited c w1
      | Result.aborted w1 => Result.aborted w1
      | Result.undefined w1 => Result.undefined w1
    | none => Result.undefined w
  else Result.ok none w

/-- The call `g_memdup(mem, byte_size)`, whose `byte_size` is a `guint`. -/
def g_memdup (mem : Option Nat) (byte_size : Int) : M (Option Nat) :=
  g_memdup_bytes mem (toGuint byte_size)

/-- The name `g_memdup2` as `pkg/gst/gst.c` sees it: on Linux the file defines
it to be `g_memdup`; elsewhere it is GLib's own, with `gsize byte_size`. -/
def g_memdup2 (linux : Bool) (mem : Option Nat) (byte_size : Int) : M (Option Nat) :=
  if linux then g_memdup mem byte_size else g_memdup_bytes mem (toGsize byte_size)

/-- The call `gst_buffer_new_wrapped(data, size)`: a buffer around the given
memory, of the given `gsize` size, with no duration set. -/
def gst_buffer_new_wrapped (data : Option Nat) (size : Int) : M GstBuffer := fun w =>
  Result.ok ⟨data, toGsize size, GST_CLOCK_TIME_NONE⟩ w

/-- The call `gst_app_src_push_buffer`: the buffer is handed to the entry point. -/
def gst_app_src_push_buffer (appsrc : Option Nat) (buffer : GstBuffer) :
    M GstFlowReturn := fun w =>
  match appsrc with
  | some i =>
    Result.ok GstFlowReturn.GST_FLOW_OK
      (w.modifyElement i (fun e => { e with submitted := e.submitted ++ [buffer] }))
  | none =>
    match g_critical "gst_app_src_push_buffer" w with
    | Result.ok _ w1 => Result.ok GstFlowReturn.GST_FLOW_ERROR w1
    | Result.exited c w1 => Result.exited c w1
    | Result.aborted w1 => Result.aborted w1
    | Result.undefined w1 => Result.undefined w1

/-- The action signal `pull-sample` of an appsink: the oldest sample it holds,
or `NULL` when it has none to give.  The caller owns the sample. -/
def g_signal_emit_by_name_pull_sample (object : Option Nat) : M (Option GstSample) :=
  fun w =>
  match object with
  | some i =>
    match w.pipeline.children[i]? with
    | some e =>
      match e.queue with
      | s :: rest =>
        Result.ok (some s)
          { (w.modifyElement i (fun e => { e with queue := rest })) with
            sampleRefs := w.sampleRefs + 1 }
      | [] => Result.ok none w
    | none => Result.undefined w
  | none =>
    match g_critical "g_signal_emit_by_name" w with
    | Result.ok _ w1 => Result.ok none w1
    | Result.exited c w1 => Result.exited c w1
    | Result.aborted w1 => Result.aborted w1
    | Result.undefined w1 => Result.undefined w1

def gst_sample_get_buffer (sample : GstSample) : Option GstBuffer := sample.buffer

def gst_buffer_get_size (buffer : GstBuffer) : Nat := buffer.size

/-- The macro `GST_BUFFER_DURATION`. -/
def GST_BUFFER_DURATION (buffer : GstBuffer) : Nat := buffer.duration

/-- The call `gst_sample_unref`: releases the reference the caller holds. -/
def gst_sample_unref (_sample : GstSample) : M Unit := fun w =>
  Result.ok () { w with sampleRefs := w.sampleRefs - 1 }

/-- The call `gst_buffer_extract_dup(buffer, offset, size, &dest, &dest_size)`: copies
`min (real_size - offset) size` bytes of the buffer, from `offset` on, into
newly allocated memory (`g_malloc`, which is `NULL` for 0 bytes). -/
def gst_buffer_extract_dup (buffer : GstBuffer) (offset size : Nat) :
    M (Option Nat × Nat) := fun w =>
  let real_size := gst_buffer_get_size buffer
  let n := min (real_size - offset) size
  match buffer.payload w.heap with
  | some d =>
    if n = 0 then Result.ok (none, 0) w
    else
      match alloc (Block.bytes ((d.drop offset).take n)) w with
      | Result.ok a w1 => Result.ok (some a, n) w1
      | Result.exited c w1 => Result.exited c w1
      | Result.aborted w1 => Result.aborted w1
      | Result.undefined w1 => Result.undefined w1
  | none => Result.undefined w

/-- The host handler `goHandlePipelineBuffer`: the call is recorded. -/
def goHandlePipelineBuffer (buffer : Option Nat) (bufferLen : Nat) (duration : Nat)
    (pipelineId : Int) (trackIdx : Int) : M Unit := fun w =>
  Result.ok () { w with hostCalls := w.hostCalls ++ [⟨buffer, bufferLen, duration, pipelineId, trackIdx⟩] }

/-- The call `gst_message_parse_error`: copies of the error and of the debug
string of an error message. -/
def gst_message_parse_error (error : GError) (debug : String) : GError × String :=
  (error, debug)

/-- The call `g_free` on the debug string: the copy is gone, nothing else changes. -/
def g_free (_debug : String) : M Unit := fun w => Result.ok () w

/-- The call `g_error_free`: the copy is gone, nothing else changes. -/
def g_error_free (_error : GError) : M Unit := fun w => Result.ok () w

/-! ## `internal/gst-src/gst.c`: the outbound controller -/

/-- The bus listener of the outbound controller; `TRUE` keeps the watch. -/
def gstreamer_send_bus_call (msg : GstMessage) : M Bool := do
  match msg with
  | GstMessage.GST_MESSAGE_EOS =>
    g_print "End of stream\n"
    exit 1
  | GstMessage.GST_MESSAGE_ERROR e d =>
    let (error, debug) := gst_message_parse_error e d
    g_free debug
    g_printerr ("Error: " ++ error.message ++ "\n")
    g_error_free error
    exit 1
  | GstMessage.other _ => pure ()
  return true

/-- The `new-sample` callback of the outbound controller. -/
def gstreamer_send_new_sample_handler (object : Option Nat) (user_data : Option Nat) :
    M GstFlowReturn := do
  let s := user_data
  let sample ← g_signal_emit_by_name_pull_sample object
  match sample with
  | some smp =>
    let buffer := gst_sample_get_buffer smp
    match buffer with
    | some buf =>
      let (copy, copy_size) ← gst_buffer_extract_dup buf 0 (gst_buffer_get_size buf)
      let sd ← deref_SampleHandlerUserData s
      goHandlePipelineBuffer copy copy_size (GST_BUFFER_DURATION buf) sd.pipelineId sd.trackIdx
    | none => pure ()
    gst_sample_unref smp
  | none => pure ()
  return GstFlowReturn.GST_FLOW_OK

/-- The error output `error` of the parser is a local that is never read. -/
def gstreamer_send_create_pipeline (parser : String → ParseOutput) (pipeline : String) :
    M (Option GstPipeline) := do
  gst_init
  let out ← gst_parse_launch parser pipeline
  return out.element

def gstreamer_send_start_pipeline (pipelineId : Int) : M Unit := do
  let bus ← gst_pipeline_get_bus
  gst_bus_add_watch bus BusFunc.gstreamer_send_bus_call BusData.null
  gst_object_unref bus

  let sa ← calloc_SampleHandlerUserData
  set_pipelineId sa pipelineId
  set_trackIdx sa 0
  let appsink_a ← gst_bin_get_by_name "audio"
  g_object_set appsink_a "emit-signals" true
  g_signal_connect appsink_a "new-sample" Callback.gstreamer_send_new_sample_handler sa
  gst_object_unref (appsink_a.map GstObject.element)

  let sv ← calloc_SampleHandlerUserData
  set_pipelineId sv pipelineId
  set_trackIdx sv 1
  let appsink_v ← gst_bin_get_by_name "video"
  g_object_set appsink_v "emit-signals" true
  g_signal_connect appsink_v "new-sample" Callback.gstreamer_send_new_sample_handler sv
  gst_object_unref (appsink_v.map GstObject.element)

  gst_element_set_state GstState.GST_STATE_PLAYING

def gstreamer_send_stop_pipeline : M Unit :=
  gst_element_set_state GstState.GST_STATE_NULL

/-! ## `pkg/gst/gst.c`: the inbound controller -/

/-- The bus listener of the inbound controller; the error case falls through
to `default`. -/
def gstreamer_receive_bus_call (msg : GstMessage) : M Bool := do
  match msg with
  | GstMessage.GST_MESSAGE_EOS =>
    g_print "End of stream\n"
  | GstMessage.GST_MESSAGE_ERROR e d =>
    let (error, debug) := gst_message_parse_error e d
    g_free debug
    g_printerr ("Error: " ++ error.message ++ "\n")
    g_error_free error
  | GstMessage.other _ => pure ()
  return true

/-- The error output `error` of the parser is a local that is never read. -/
def gstreamer_receive_create_pipeline (parser : String → ParseOutput) (pipeline : String) :
    M (Option GstPipeline) := do
  gst_init
  let out ← gst_parse_launch parser pipeline
  return out.element

def gstreamer_receive_start_pipeline : M Unit := do
  let bus ← gst_pipeline_get_bus
  gst_bus_add_watch bus BusFunc.gstreamer_receive_bus_call BusData.pipeline
  gst_object_unref bus
  gst_element_set_state GstState.GST_STATE_PLAYING

def gstreamer_receive_stop_pipeline : M Unit :=
  gst_element_set_state GstState.GST_STATE_NULL

def gstreamer_receive_push_buffer (linux : Bool) (buffer : Option Nat) (len : Int)
    (srcId : String) : M Unit := do
  let src ← gst_bin_get_by_name srcId
  if src ≠ none then
    let p ← g_memdup2 linux buffer len
    let buffer ← gst_buffer_new_wrapped p len
    let _ ← gst_app_src_push_buffer src buffer
    gst_object_unref (src.map GstObject.element)

/-! ## Sequences of pushes, and the worlds they lead to -/

/-- An element as the parser leaves it: one reference, nothing connected. -/
def freshElement (name : String) : GstElement :=
  ⟨name, 1, false, [], [], []⟩

/-- A world with an empty heap and a graph, not yet started, of the given elements. -/
def worldOf (fatal : Bool) (children : List GstElement) : World :=
  { fatalCriticals := fatal, gstInitCalls := 1, parsed := [], stdout := [], stderr := [],
    criticals := [], heap := [],
    pipeline := ⟨GstState.GST_STATE_NULL, 1, none, children⟩,
    sampleRefs := 0, hostCalls := [] }

/-- A graph with both sinks. -/
def avWorld : World :=
  worldOf false [freshElement "src", freshElement "audio", freshElement "video"]

/-- A block of `n` bytes of value `v`. -/
def cam0Block (n : Nat) (v : Byte) : List Byte := List.replicate n v

/-- The entry point of the inbound scenario. -/
def cam0 : GstElement := freshElement "cam0"

/-- An inbound graph with the entry point `cam0`, playing, and three host
buffers of 10, 20 and 30 bytes at addresses 0, 1 and 2. -/
def cam0World : World :=
  { fatalCriticals := false, gstInitCalls := 1, parsed := ["appsrc name=cam0 ! fakesink"],
    stdout := [], stderr := [], criticals := [],
    heap := [Block.bytes (cam0Block 10 1), Block.bytes (cam0Block 20 2),
             Block.bytes (cam0Block 30 3)],
    pipeline :=
      ⟨GstState.GST_STATE_PLAYING, 1,
        some ⟨BusFunc.gstreamer_receive_bus_call, BusData.pipeline⟩, [cam0]⟩,
    sampleRefs := 0, hostCalls := [] }

/-- The buffer held by the audio sink of `sampleWorld`: 4 bytes at address 0,
lasting 20 ms. -/
def sampleBuffer : GstBuffer := ⟨some 0, 4, 20000000⟩

/-- The audio sink of `sampleWorld`, holding one sample. -/
def sampleSink : GstElement :=
  ⟨"audio", 1, true,
    [⟨"new-sample", Callback.gstreamer_send_new_sample_handler, some 1⟩],
    [⟨some sampleBuffer⟩], []⟩

/-- A started outbound graph whose audio sink holds one sample; the callback
context `(7, 0)` sits at address 1. -/
def sampleWorld : World :=
  { fatalCriticals := false, gstInitCalls := 1, parsed := [], stdout := [], stderr := [],
    criticals := [],
    heap := [Block.bytes [10, 20, 30, 40], Block.userData ⟨7, 0⟩],
    pipeline :=
      ⟨GstState.GST_STATE_PLAYING, 1,
        some ⟨BusFunc.gstreamer_send_bus_call, BusData.null⟩, [sampleSink]⟩,
    sampleRefs := 0, hostCalls := [] }

/-- The graph a parser builds from the part of a description it understood. -/
def recoveredGraph : GstPipeline :=
  ⟨GstState.GST_STATE_NULL, 1, none, [freshElement "audiotestsrc0"]⟩

/-- A parser that behaves as the framework documents for a recoverable error: on
a description naming an unknown element type it sets the error and still
returns the graph built so far; on anything else here it fails outright. -/
def recoveringParser (description : String) : ParseOutput :=
  if description = "audiotestsrc ! nosuchelement" then
    ⟨some recoveredGraph, some ⟨1, "no element nosuchelement"⟩⟩
  else ⟨none, some ⟨0, "syntax error"⟩⟩

/-! # Properties -/

/-! ## The monad -/

theorem M.bind_eq {α β : Type} (m : M α) (f : α → M β) : (m >>= f) = M.bind m f := rfl
theorem M.pure_apply {α : Type} (a : α) (w : World) : (pure a : M α) w = Result.ok a w := rfl

/-! ## Lookup and update of elements -/

theorem findIdx_eq_none {name : String} {l : List GstElement}
    (h : ∀ e ∈ l, e.name ≠ name) : findIdx name l = none := by
  induction l with
  | nil => rfl
  | cons e es ih =>
    have h1 : e.name ≠ name := h e (List.mem_cons_self _ _)
    have h2 : findIdx name es = none := ih (fun x hx => h x (List.mem_cons_of_mem _ hx))
    simp [findIdx, h1, h2]

theorem findIdx_some {name : String} {l : List GstElement} {i : Nat}
    (h : findIdx name l = some i) : ∃ e, l[i]? = some e ∧ e.name = name := by
  induction l generalizing i with
  | nil => simp [findIdx] at h
  | cons e es ih =>
    by_cases hn : e.name = name
    · simp [findIdx, hn] at h
      subst h
      exact ⟨e, by simp, hn⟩
    · simp [findIdx, hn] at h
      obtain ⟨j, hj, rfl⟩ := h
      obtain ⟨x, hx, hxn⟩ := ih hj
      exact ⟨x, by simpa using hx, hxn⟩

theorem findIdx_modifyAt {f : GstElement → GstElement} (hf : ∀ e, (f e).name = e.name)
    (name : String) (i : Nat) (l : List GstElement) :
    findIdx name (modifyAt f i l) = findIdx name l := by
  induction l generalizing i with
  | nil => cases i <;> rfl
  | cons e es ih =>
    cases i with
    | zero => simp [modifyAt, findIdx, hf]
    | succ n => simp [modifyAt, findIdx, ih]

theorem get_modifyAt (f : GstElement → GstElement) (i j : Nat) (l : List GstElement) :
    (modifyAt f i l)[j]? = if j = i then (l[j]?).map f else l[j]? := by
  induction l generalizing i j with
  | nil => cases i <;> simp [modifyAt]
  | cons e es ih =>
    cases i with
    | zero => cases j <;> simp [modifyAt]
    | succ n =>
      cases j with
      | zero => simp [modifyAt]
      | succ m => simp [modifyAt, ih]

theorem modifyAt_modifyAt (f g : GstElement → GstElement) (i : Nat) (l : List GstElement) :
    modifyAt g i (modifyAt f i l) = modifyAt (fun e => g (f e)) i l := by
  induction l generalizing i with
  | nil => cases i <;> rfl
  | cons e es ih =>
    cases i with
    | zero => rfl
    | succ n => simp [modifyAt, ih]

theorem byName_eq_some {p : GstPipeline} {name : String} {e : GstElement}
    (h : p.byName name = some e) :
    ∃ i, findIdx name p.children = some i ∧ p.children[i]? = some e ∧ e.name = name := by
  unfold GstPipeline.byName at h
  cases hi : findIdx name p.children with
  | none => simp [hi] at h
  | some i =>
    simp only [hi] at h
    obtain ⟨x, hx, hxn⟩ := findIdx_some hi
    rw [hx] at h
    cases h
    exact ⟨i, rfl, hx, hxn⟩

theorem heap_set_new (heap : List Block) (b c : Block) :
    (heap ++ [b]).set heap.length c = heap ++ [c] := by
  induction heap with
  | nil => rfl
  | cons x xs ih => simp [List.set, ih]

theorem heap_get_mono {heap : List Block} {a : Nat} {b : Block} (ext : List Block)
    (h : heap[a]? = some b) : (heap ++ ext)[a]? = some b := by
  have hlt : a < heap.length := by
    rcases Nat.lt_or_ge a heap.length with h1 | h1
    · exact h1
    · rw [List.getElem?_eq_none h1] at h
      cases h
  rw [List.getElem?_append_left hlt]
  exact h

theorem userDataAt_new (heap : List Block) (d : SampleHandlerUserData) :
    userDataAt (heap ++ [Block.userData d]) (some heap.length) = some d := by
  simp [userDataAt]

theorem userDataAt_mono {heap : List Block} {p : Option Nat} {d : SampleHandlerUserData}
    (ext : List Block) (h : userDataAt heap p = some d) :
    userDataAt (heap ++ ext) p = some d := by
  cases p with
  | none => simp [userDataAt] at h
  | some a =>
    simp only [userDataAt] at h ⊢
    cases hb : heap[a]? with
    | none => simp [hb] at h
    | some b =>
      rw [heap_get_mono ext hb]
      simpa [hb] using h

theorem bytesAt_new (heap : List Block) (data : List Byte) :
    bytesAt (heap ++ [Block.bytes data]) (some heap.length) data.length = some data := by
  by_cases hn : data.length = 0
  · have : data = [] := by simpa using hn
    subst this
    rfl
  · simp [bytesAt, hn]

theorem bytesAt_length {heap : List Block} {p : Option Nat} {n : Nat} {d : List Byte}
    (h : bytesAt heap p n = some d) : d.length = n := by
  by_cases hn : n = 0
  · simp [bytesAt, hn] at h
    subst h
    simp [hn]
  · cases p with
    | none => simp [bytesAt, hn] at h
    | some a =>
      simp only [bytesAt, hn, if_false] at h
      cases hb : heap[a]? with
      | none => simp [hb] at h
      | some blk =>
        cases blk with
        | userData u => simp [hb] at h
        | bytes x =>
          simp only [hb] at h
          by_cases hx : n ≤ x.length
          · simp only [hx, if_true, Option.some.injEq] at h
            subst h
            simp [hx]
          · simp [hx] at h

/-- The three statements that build a callback context: `calloc`, then the two
field assignments. -/
theorem new_userData {α : Type} (pipelineId trackIdx : Int) (k : Option Nat → M α) (w : World) :
    (calloc_SampleHandlerUserData >>= fun s =>
      set_pipelineId s pipelineId >>= fun _ =>
      set_trackIdx s trackIdx >>= fun _ => k s) w
      = k (some w.heap.length)
          { w with heap := w.heap ++ [Block.userData ⟨pipelineId, trackIdx⟩] } := by
  simp [M.bind_eq, M.bind, calloc_SampleHandlerUserData, alloc, set_pipelineId, set_trackIdx,
    heap_set_new]

/-- The four statements that set up one sink, when the sink exists. -/
theorem sink_present {α : Type} (name : String) (s : Option Nat) (k : M α) (w : World) (i : Nat)
    (h : findIdx name w.pipeline.children = some i) :
    (gst_bin_get_by_name name >>= fun appsink =>
      g_object_set appsink "emit-signals" true >>= fun _ =>
      g_signal_connect appsink "new-sample" Callback.gstreamer_send_new_sample_handler s >>= fun _ =>
      gst_object_unref (appsink.map GstObject.element) >>= fun _ => k) w
      = k (w.modifyElement i (fun e =>
            { e with emitSignals := true,
                     handlers := e.handlers ++
                       [⟨"new-sample", Callback.gstreamer_send_new_sample_handler, s⟩] })) := by
  simp [M.bind_eq, M.bind, gst_bin_get_by_name, h, g_object_set, g_signal_connect,
    gst_object_unref, World.modifyElement, modifyAt_modifyAt]

/-- The three statements that attach the bus listener. -/
theorem bus_attached {α : Type} (func : BusFunc) (data : BusData) (k : M α) (w : World) :
    (gst_pipeline_get_bus >>= fun bus =>
      gst_bus_add_watch bus func data >>= fun _ =>
      gst_object_unref bus >>= fun _ => k) w
      = k { w with pipeline :=
              { w.pipeline with
                busWatch := some ((w.pipeline.busWatch).getD ⟨func, data⟩) } } := by
  cases hb : w.pipeline.busWatch <;>
    simp [M.bind_eq, M.bind, gst_pipeline_get_bus, gst_bus_add_watch, gst_object_unref, hb]

theorem send_start_unfold (pipelineId : Int) :
    gstreamer_send_start_pipeline pipelineId =
     (gst_pipeline_get_bus >>= fun bus =>
      gst_bus_add_watch bus BusFunc.gstreamer_send_bus_call BusData.null >>= fun _ =>
      gst_object_unref bus >>= fun _ =>
      calloc_SampleHandlerUserData >>= fun sa =>
      set_pipelineId sa pipelineId >>= fun _ =>
      set_trackIdx sa 0 >>= fun _ =>
      gst_bin_get_by_name "audio" >>= fun appsink_a =>
      g_object_set appsink_a "emit-signals" true >>= fun _ =>
      g_signal_connect appsink_a "new-sample" Callback.gstreamer_send_new_sample_handler sa >>= fun _ =>
      gst_object_unref (appsink_a.map GstObject.element) >>= fun _ =>
      calloc_SampleHandlerUserData >>= fun sv =>
      set_pipelineId sv pipelineId >>= fun _ =>
      set_trackIdx sv 1 >>= fun _ =>
      gst_bin_get_by_name "video" >>= fun appsink_v =>
      g_object_set appsink_v "emit-signals" true >>= fun _ =>
      g_signal_connect appsink_v "new-sample" Callback.gstreamer_send_new_sample_handler sv >>= fun _ =>
      gst_object_unref (appsink_v.map GstObject.element) >>= fun _ =>
      gst_element_set_state GstState.GST_STATE_PLAYING) := rfl

/-! ## One push, and many -/

/-- C3.  When no element of the graph is named `srcId`,
`gstreamer_receive_push_buffer` returns normally and leaves the whole world as
it was, for every buffer pointer, every `len` and either platform: nothing is
copied, nothing is submitted, no diagnostic is emitted, the graph is unchanged. -/
theorem push_buffer_missing_entry_point (linux : Bool) (w : World) (buffer : Option Nat)
    (len : Int) (srcId : String)
    (h : ∀ e ∈ w.pipeline.children, e.name ≠ srcId) :
    gstreamer_receive_push_buffer linux buffer len srcId w = Result.ok () w := by
  simp [gstreamer_receive_push_buffer, M.bind_eq, M.bind, gst_bin_get_by_name,
    findIdx_eq_none h]
  rfl

/-- C3 at `cam0World`, which has no element named `cam1`. -/
theorem push_buffer_missing_entry_point_witness :
    (∀ e ∈ cam0World.pipeline.children, e.name ≠ "cam1")
      ∧ gstreamer_receive_push_buffer true (some 0) 10 "cam1" cam0World
          = Result.ok () cam0World :=
  ⟨by decide, push_buffer_missing_entry_point true cam0World (some 0) 10 "cam1" (by decide)⟩

/-! ## C4 and C5: the bus listeners -/

/-- C4.  The outbound bus listener, on end-of-stream, prints `End of stream` and
leaves through `exit(1)`; on an error message it prints `Error: ` followed by
the message of the error on the error stream and leaves through `exit(1)`.  In
both cases the result is a terminated process, not a return value; nothing else
in the world changes.  Any other message makes it return `TRUE`. -/
theorem send_bus_call_fatal (w : World) :
    gstreamer_send_bus_call GstMessage.GST_MESSAGE_EOS w
        = Result.exited 1 { w with stdout := w.stdout ++ ["End of stream\n"] }
      ∧ (∀ (error : GError) (debug : String),
          gstreamer_send_bus_call (GstMessage.GST_MESSAGE_ERROR error debug) w
            = Result.exited 1
                { w with stderr := w.stderr ++ ["Error: " ++ error.message ++ "\n"] })
      ∧ (∀ type : Nat, gstreamer_send_bus_call (GstMessage.other type) w = Result.ok true w) :=
  ⟨rfl, fun _ _ => rfl, fun _ => rfl⟩

/-- C5.  The inbound bus listener returns `TRUE` on every message and never
ends the process: on end-of-stream it prints `End of stream`, on an error
message it prints `Error: ` followed by the message of the error on the error
stream, on any other message it does nothing; and in every case the graph,
its state included, is as it was. -/
theorem receive_bus_call_nonfatal (w : World) :
    gstreamer_receive_bus_call GstMessage.GST_MESSAGE_EOS w
        = Result.ok true { w with stdout := w.stdout ++ ["End of stream\n"] }
      ∧ (∀ (error : GError) (debug : String),
          gstreamer_receive_bus_call (GstMessage.GST_MESSAGE_ERROR error debug) w
            = Result.ok true
                { w with stderr := w.stderr ++ ["Error: " ++ error.message ++ "\n"] })
      ∧ (∀ type : Nat,
          gstreamer_receive_bus_call (GstMessage.other type) w = Result.ok true w)
      ∧ (∀ msg : GstMessage,
          (gstreamer_receive_bus_call msg w).terminated = false
            ∧ (gstreamer_receive_bus_call msg w).world.pipeline = w.pipeline) := by
  refine ⟨rfl, fun _ _ => rfl, fun _ => rfl, fun msg => ?_⟩
  cases msg <;> exact ⟨rfl, rfl⟩

/-! ## C6: the sample callback -/

/-- C6.  Let the callback run for the sink `e` at index `object`, with context
pointer `user_data`.  A processed unit is a sample that carries a buffer.

* If the sink has no sample to give, the callback returns `GST_FLOW_OK` and the
  world is as it was.
* If the pulled sample carries no buffer, the sample is released, the handler
  is not invoked, and nothing but the queue of the sink changes.
* If the pulled sample carries the buffer `b` with payload `payload`, and
  `user_data` points to the context `ctx`, then the host handler is invoked
  exactly once, after the invocations already recorded, with a pointer `copy`,
  the size of `b`, the duration of `b`, and the two fields of `ctx`.  The
  memory at `copy` holds the whole payload, it is a block that did not exist
  before (or `NULL` for an empty payload), no existing block is changed, the
  sample is released, and the callback returns `GST_FLOW_OK`. -/
theorem sample_handler_once (w : World) (object : Nat) (user_data : Option Nat)
    (e : GstElement) (he : w.pipeline.children[object]? = some e) :
    (e.queue = [] →
      gstreamer_send_new_sample_handler (some object) user_data w
        = Result.ok GstFlowReturn.GST_FLOW_OK w)
    ∧ (∀ rest, e.queue = ⟨none⟩ :: rest →
      gstreamer_send_new_sample_handler (some object) user_data w
        = Result.ok GstFlowReturn.GST_FLOW_OK
            (w.modifyElement object (fun x => { x with queue := rest })))
    ∧ (∀ (b : GstBuffer) (rest : List GstSample) (payload : List Byte)
        (ctx : SampleHandlerUserData),
      e.queue = ⟨some b⟩ :: rest →
      b.payload w.heap = some payload →
      userDataAt w.heap user_data = some ctx →
      ∃ (w1 : World) (copy : Option Nat),
        gstreamer_send_new_sample_handler (some object) user_data w
            = Result.ok GstFlowReturn.GST_FLOW_OK w1
          ∧ w1.hostCalls = w.hostCalls ++
              [⟨copy, b.size, b.duration, ctx.pipelineId, ctx.trackIdx⟩]
          ∧ bytesAt w1.heap copy b.size = some payload
          ∧ payload.length = b.size
          ∧ (∀ a : Nat, copy = some a → w.heap[a]? = none)
          ∧ (∀ (a : Nat) (blk : Block), w.heap[a]? = some blk → w1.heap[a]? = some blk)
          ∧ w1.pipeline = (w.modifyElement object (fun x => { x with queue := rest })).pipeline
          ∧ w1.sampleRefs = w.sampleRefs) := by
  refine ⟨?_, ?_, ?_⟩
  · intro hq
    simp [gstreamer_send_new_sample_handler, M.bind_eq, M.bind, M.pure_apply,
      g_signal_emit_by_name_pull_sample, he, hq]
    rfl
  · intro rest hq
    simp [gstreamer_send_new_sample_handler, M.bind_eq, M.bind, M.pure_apply,
      g_signal_emit_by_name_pull_sample, he, hq, gst_sample_get_buffer, gst_sample_unref,
      World.modifyElement]
    rfl
  · intro b rest payload ctx hq hpay hctx
    have hlen : payload.length = b.size := bytesAt_length hpay
    have hpay1 : bytesAt w.heap b.data b.size = some payload := hpay
    by_cases hn : b.size = 0
    · have hnil : payload = [] := by
        rw [hn] at hlen
        simpa using hlen
      have hpay0 : bytesAt w.heap b.data 0 = some payload := by
        rw [hn] at hpay1
        exact hpay1
      refine ⟨{ (w.modifyElement object (fun x => { x with queue := rest })) with
          hostCalls := w.hostCalls ++
            [⟨none, b.size, b.duration, ctx.pipelineId, ctx.trackIdx⟩] },
        none, ?_, ?_, ?_, hlen, ?_, ?_, ?_, ?_⟩
      · simp [gstreamer_send_new_sample_handler, M.bind_eq, M.bind, M.pure_apply,
          g_signal_emit_by_name_pull_sample, he, hq, gst_sample_get_buffer, gst_sample_unref,
          World.modifyElement, gst_buffer_extract_dup, gst_buffer_get_size, GstBuffer.payload,
          hpay0, hn, deref_SampleHandlerUserData, hctx, goHandlePipelineBuffer,
          GST_BUFFER_DURATION]
        rfl
      · rfl
      · simp [bytesAt, hn, hnil]
      · intro a ha
        cases ha
      · intro a blk h
        exact h
      · rfl
      · rfl
    · refine ⟨{ (w.modifyElement object (fun x => { x with queue := rest })) with
          heap := w.heap ++ [Block.bytes payload],
          hostCalls := w.hostCalls ++
            [⟨some w.heap.length, b.size, b.duration, ctx.pipelineId, ctx.trackIdx⟩] },
        some w.heap.length, ?_, ?_, ?_, hlen, ?_, ?_, ?_, ?_⟩
      · have htake : List.take b.size payload = payload := by
          rw [← hlen]
          exact List.take_length _
        have hctx1 : userDataAt (w.heap ++ [Block.bytes payload]) user_data = some ctx :=
          userDataAt_mono _ hctx
        simp [gstreamer_send_new_sample_handler, M.bind_eq, M.bind, M.pure_apply,
          g_signal_emit_by_name_pull_sample, he, hq, gst_sample_get_buffer, gst_sample_unref,
          World.modifyElement, gst_buffer_extract_dup, gst_buffer_get_size, GstBuffer.payload,
          hpay1, hn, alloc, htake, deref_SampleHandlerUserData, hctx1, goHandlePipelineBuffer,
          GST_BUFFER_DURATION]
        rfl
      · rfl
      · have := bytesAt_new w.heap payload
        rw [hlen] at this
        exact this
      · intro a ha
        cases ha
        simp
      · intro a blk h
        exact heap_get_mono _ h
      · rfl
      · rfl

/-- C6 at `sampleWorld`: the audio sink holds one sample of 4 bytes lasting
20 ms, the context is `(7, 0)`; the handler is invoked once with a copy of the
4 bytes at the new address 2. -/
theorem sample_handler_once_witness :
    sampleWorld.pipeline.children[0]? = some sampleSink
      ∧ gstreamer_send_new_sample_handler (some 0) (some 1) sampleWorld
          = Result.ok GstFlowReturn.GST_FLOW_OK
              { sampleWorld with
                heap := sampleWorld.heap ++ [Block.bytes [10, 20, 30, 40]],
                pipeline :=
                  { sampleWorld.pipeline with children := [{ sampleSink with queue := [] }] },
                hostCalls := [⟨some 2, 4, 20000000, 7, 0⟩] }
      ∧ ((sampleSink.queue = [] →
          gstreamer_send_new_sample_handler (some 0) (some 1) sampleWorld
            = Result.ok GstFlowReturn.GST_FLOW_OK sampleWorld)
        ∧ (∀ rest, sampleSink.queue = ⟨none⟩ :: rest →
          gstreamer_send_new_sample_handler (some 0) (some 1) sampleWorld
            = Result.ok GstFlowReturn.GST_FLOW_OK
                (sampleWorld.modifyElement 0 (fun x => { x with queue := rest })))
        ∧ (∀ (b : GstBuffer) (rest : List GstSample) (payload : List Byte)
            (ctx : SampleHandlerUserData),
          sampleSink.queue = ⟨some b⟩ :: rest →
          b.payload sampleWorld.heap = some payload →
          userDataAt sampleWorld.heap (some 1) = some ctx →
          ∃ (w1 : World) (copy : Option Nat),
            gstreamer_send_new_sample_handler (some 0) (some 1) sampleWorld
                = Result.ok GstFlowReturn.GST_FLOW_OK w1
              ∧ w1.hostCalls = sampleWorld.hostCalls ++
                  [⟨copy, b.size, b.duration, ctx.pipelineId, ctx.trackIdx⟩]
              ∧ bytesAt w1.heap copy b.size = some payload
              ∧ payload.length = b.size
              ∧ (∀ a : Nat, copy = some a → sampleWorld.heap[a]? = none)
              ∧ (∀ (a : Nat) (blk : Block),
                  sampleWorld.heap[a]? = some blk → w1.heap[a]? = some blk)
              ∧ w1.pipeline
                  = (sampleWorld.modifyElement 0 (fun x => { x with queue := rest })).pipeline
              ∧ w1.sampleRefs = sampleWorld.sampleRefs)) :=
  ⟨by decide, by decide, sample_handler_once sampleWorld 0 (some 1) sampleSink (by decide)⟩

/-! ## C7: starting the outbound controller with both sinks -/

/-- C7.  Let the graph contain the element `ea` under the name `audio` and the
element `ev` under the name `video`.  Then `gstreamer_send_start_pipeline`
returns normally, without any critical diagnostic, and afterwards

* the graph is in the playing state;
* `emit-signals` is on for both sinks;
* each sink has exactly one more handler than before, connected to
  `new-sample` with the callback `gstreamer_send_new_sample_handler`; the
  context of the one on `audio` is `(pipelineId, 0)`, the context of the one on
  `video` is `(pipelineId, 1)`;
* the two sinks are otherwise as before and no element of another name is
  touched. -/
theorem send_start_registers (w : World) (pipelineId : Int) (ea ev : GstElement)
    (ha : w.pipeline.byName "audio" = some ea) (hv : w.pipeline.byName "video" = some ev) :
    ∃ (w1 : World) (sa sv : Option Nat),
      gstreamer_send_start_pipeline pipelineId w = Result.ok () w1
        ∧ w1.pipeline.state = GstState.GST_STATE_PLAYING
        ∧ w1.pipeline.byName "audio"
            = some { ea with
                emitSignals := true,
                handlers := ea.handlers ++
                  [⟨"new-sample", Callback.gstreamer_send_new_sample_handler, sa⟩] }
        ∧ userDataAt w1.heap sa = some ⟨pipelineId, 0⟩
        ∧ w1.pipeline.byName "video"
            = some { ev with
                emitSignals := true,
                handlers := ev.handlers ++
                  [⟨"new-sample", Callback.gstreamer_send_new_sample_handler, sv⟩] }
        ∧ userDataAt w1.heap sv = some ⟨pipelineId, 1⟩
        ∧ (∀ name, name ≠ "audio" → name ≠ "video" →
            w1.pipeline.byName name = w.pipeline.byName name)
        ∧ w1.criticals = w.criticals := by
  obtain ⟨ia, hia, hea, hna⟩ := byName_eq_some ha
  obtain ⟨iv, hiv, hev, hnv⟩ := byName_eq_some hv
  have hne : ia ≠ iv := by
    rintro rfl
    rw [hea] at hev
    cases hev
    rw [hna] at hnv
    exact absurd hnv (by decide)
  rw [send_start_unfold, bus_attached, new_userData,
    sink_present _ _ _ _ ia (by simpa using hia), new_userData,
    sink_present _ _ _ _ iv (by simpa [World.modifyElement, findIdx_modifyAt] using hiv)]
  simp only [gst_element_set_state, World.modifyElement]
  refine ⟨_, some w.heap.length, some (w.heap ++ [Block.userData ⟨pipelineId, 0⟩]).length, rfl, rfl, ?_, ?_, ?_, ?_, ?_, rfl⟩
  · simp [GstPipeline.byName, findIdx_modifyAt, hia, get_modifyAt, hne, hea]
  · exact userDataAt_mono _ (userDataAt_new _ _)
  · simp [GstPipeline.byName, findIdx_modifyAt, hiv, get_modifyAt, hne.symm, hev]
  · exact userDataAt_new _ _
  · intro name h1 h2
    simp only [GstPipeline.byName, findIdx_modifyAt]
    cases hj : findIdx name w.pipeline.children with
    | none => simp [findIdx_modifyAt, hj]
    | some j =>
      obtain ⟨x, hx, hxn⟩ := findIdx_some hj
      have hja : j ≠ ia := by
        rintro rfl
        rw [hea] at hx; cases hx
        exact h1 (hxn.symm.trans hna)
      have hjv : j ≠ iv := by
        rintro rfl
        rw [hev] at hx; cases hx
        exact h2 (hxn.symm.trans hnv)
      simp [findIdx_modifyAt, hj, get_modifyAt, hja, hjv]

/-- C7 at `avWorld`, a graph with a source and the two sinks, for pipeline 7. -/
theorem send_start_registers_witness :
    avWorld.pipeline.byName "audio" = some (freshElement "audio")
      ∧ avWorld.pipeline.byName "video" = some (freshElement "video")
      ∧ ∃ (w1 : World) (sa sv : Option Nat),
          gstreamer_send_start_pipeline 7 avWorld = Result.ok () w1
            ∧ w1.pipeline.state = GstState.GST_STATE_PLAYING
            ∧ w1.pipeline.byName "audio"
                = some { freshElement "audio" with
                    emitSignals := true,
                    handlers := (freshElement "audio").handlers ++
                      [⟨"new-sample", Callback.gstreamer_send_new_sample_handler, sa⟩] }
            ∧ userDataAt w1.heap sa = some ⟨7, 0⟩
            ∧ w1.pipeline.byName "video"
                = some { freshElement "video" with
                    emitSignals := true,
                    handlers := (freshElement "video").handlers ++
                      [⟨"new-sample", Callback.gstreamer_send_new_sample_handler, sv⟩] }
            ∧ userDataAt w1.heap sv = some ⟨7, 1⟩
            ∧ (∀ name, name ≠ "audio" → name ≠ "video" →
                w1.pipeline.byName name = avWorld.pipeline.byName name)
            ∧ w1.criticals = avWorld.criticals :=
  ⟨by decide, by decide,
    send_start_registers avWorld 7 (freshElement "audio") (freshElement "video")
      (by decide) (by decide)⟩

/-! ## C8: creating a pipeline -/

/-- C8, as stated, fails.  For the description `audiotestsrc ! nosuchelement`
the parser `recoveringParser` sets its error output and still returns a graph;
both `createPipeline` functions return that graph, not a null handle. -/
theorem create_pipeline_error_with_element :
    (recoveringParser "audiotestsrc ! nosuchelement").error
        = some ⟨1, "no element nosuchelement"⟩
      ∧ gstreamer_send_create_pipeline recoveringParser "audiotestsrc ! nosuchelement"
            (worldOf false [])
          = Result.ok (some recoveredGraph)
              { worldOf false [] with
                gstInitCalls := 2, parsed := ["audiotestsrc ! nosuchelement"] }
      ∧ gstreamer_receive_create_pipeline recoveringParser "audiotestsrc ! nosuchelement"
            (worldOf false [])
          = Result.ok (some recoveredGraph)
              { worldOf false [] with
                gstInitCalls := 2, parsed := ["audiotestsrc ! nosuchelement"] } := by
  decide

/-- C8, amended.  For every parser and every description, both `createPipeline`
functions initialise the framework, hand the description unmodified to the
parser, and return exactly the element the parser returns; the error output of
the parser has no influence.  So the handle is null exactly when the parser
returns null. -/
theorem create_pipeline_returns_parser_element (parser : String → ParseOutput)
    (description : String) (w : World) :
    gstreamer_send_create_pipeline parser description w
        = Result.ok (parser description).element
            { w with gstInitCalls := w.gstInitCalls + 1, parsed := w.parsed ++ [description] }
      ∧ gstreamer_receive_create_pipeline parser description w
        = Result.ok (parser description).element
            { w with gstInitCalls := w.gstInitCalls + 1, parsed := w.parsed ++ [description] } :=
  ⟨rfl, rfl⟩

/-! ## C9: stopping twice -/

/-- C9.  In both directions `stopPipeline` returns normally and changes nothing
but the state of the graph, which becomes `GST_STATE_NULL`: no reference count,
no heap block, no element changes.  Calling it twice in succession gives the
same result as calling it once. -/
theorem stop_pipeline_idempotent (w : World) :
    gstreamer_send_stop_pipeline w
        = Result.ok () { w with pipeline := { w.pipeline with state := GstState.GST_STATE_NULL } }
      ∧ (gstreamer_send_stop_pipeline >>= fun _ => gstreamer_send_stop_pipeline) w
        = gstreamer_send_stop_pipeline w
      ∧ gstreamer_receive_stop_pipeline w
        = Result.ok () { w with pipeline := { w.pipeline with state := GstState.GST_STATE_NULL } }
      ∧ (gstreamer_receive_stop_pipeline >>= fun _ => gstreamer_receive_stop_pipeline) w
        = gstreamer_receive_stop_pipeline w :=
  ⟨rfl, rfl, rfl, rfl⟩

/-! ## C10: a sequence of pushes -/

end Whip
